import Mathlib

/-!
Verification of the csv2json conversion core.

The Python module converter.py is embedded shallowly: the CSV text parser
of the standard library is abstracted as an explicit parameter
(delimiter and content to a list of records), pure record processing and
JSON shaping are translated function by function, and file input and
output are modelled by an explicit file-system map together with a trace
of write events and a flag recording whether the CSV source content was
read. Python dictionaries are modelled as association lists with
insert-or-update semantics, matching dict insertion order.
-/

set_option autoImplicit false

/-- Conversion options, mirroring the pydantic model CSVConversionOptions.
The fields skip_rows and indent are Python integers, hence Int. -/
structure CSVConversionOptions where
  delimiter : String := ","
  encoding : String := "utf-8"
  skip_rows : Int := 0
  header : Bool := true
  orient : String := "records"
  indent : Option Int := none
deriving DecidableEq, Repr

/-- The exception kinds the converter can raise: FileNotFoundError and
ValueError, each carrying the formatted message text. -/
inductive ConvError where
  | fileNotFound (msg : String)
  | valueError (msg : String)
deriving DecidableEq, Repr

/-- The list self.supported_formats of the CSVConverter constructor. -/
def supportedFormats : List String := ["records", "values", "split"]

/-- Embedding of CSVConverter._process_csv_reader: the records produced by
the csv reader are given as a list, the slice rows[skip_rows:] under the
guard skip_rows greater than zero is List.drop on the Nat part, and the
header handling matches the Python branch for branch. -/
def processCsvReader (reader : List (List String))
    (options : CSVConversionOptions) : List String × List (List String) :=
  let rows := if options.skip_rows > 0 then reader.drop options.skip_rows.toNat else reader
  match rows with
  | [] => ([], [])
  | r :: rest =>
    if options.header then
      (r, rest)
    else
      ((List.range r.length).map (fun i => "column_" ++ toString i), r :: rest)

/-- Python dict insertion: an existing key keeps its position and gets the
new value, a fresh key is appended at the end. -/
def dictInsert (d : List (String × String)) (k v : String) :
    List (String × String) :=
  if d.any (fun p => p.1 = k) then
    d.map (fun p => if p.1 = k then (k, v) else p)
  else
    d ++ [(k, v)]

/-- The dict comprehension building one record object in
_convert_to_json_format and in get_csv_info: headers and row are walked in
parallel (the call sites guarantee equal lengths) and inserted into an
initially empty dict. -/
def buildRecord (headers row : List String) : List (String × String) :=
  (headers.zip row).foldl (fun d kv => dictInsert d kv.1 kv.2) []

/-- The records loop of _convert_to_json_format: rows whose length equals
the header length are appended as record objects, all other rows are
dropped silently. -/
def recordsLoop (headers : List String) (dataRows : List (List String)) :
    List (List (String × String)) :=
  dataRows.foldl
    (fun acc row =>
      if row.length = headers.length then acc ++ [buildRecord headers row] else acc)
    []

/-- JSON values as produced by the converter: strings, arrays and objects
with ordered fields. -/
inductive JsonValue where
  | str (s : String)
  | arr (xs : List JsonValue)
  | obj (fields : List (String × JsonValue))

/-- One hexadecimal digit, lower case, as json.dumps prints unicode
escapes. -/
def hexDigit (n : Nat) : Char :=
  if n < 10 then Char.ofNat (48 + n) else Char.ofNat (87 + n)

/-- Four hexadecimal digits for a unicode escape. -/
def hex4 (n : Nat) : String :=
  String.mk [hexDigit (n / 4096 % 16), hexDigit (n / 256 % 16),
    hexDigit (n / 16 % 16), hexDigit (n % 16)]

/-- String escaping of json.dumps with ensure_ascii set to False: quote,
backslash and control characters are escaped, everything else is kept
literally. -/
def escapeChar (c : Char) : String :=
  if c = Char.ofNat 34 then String.mk [Char.ofNat 92, Char.ofNat 34]
  else if c = Char.ofNat 92 then String.mk [Char.ofNat 92, Char.ofNat 92]
  else if c = Char.ofNat 10 then String.mk [Char.ofNat 92, Char.ofNat 110]
  else if c = Char.ofNat 13 then String.mk [Char.ofNat 92, Char.ofNat 114]
  else if c = Char.ofNat 9 then String.mk [Char.ofNat 92, Char.ofNat 116]
  else if c = Char.ofNat 8 then String.mk [Char.ofNat 92, Char.ofNat 98]
  else if c = Char.ofNat 12 then String.mk [Char.ofNat 92, Char.ofNat 102]
  else if c.toNat < 32 then String.mk [Char.ofNat 92, Char.ofNat 117] ++ hex4 c.toNat
  else String.singleton c

/-- A JSON string literal with its surrounding quotes. -/
def dumpString (s : String) : String :=
  String.singleton (Char.ofNat 34) ++ String.join (s.data.map escapeChar)
    ++ String.singleton (Char.ofNat 34)

/-- The separator json.dumps puts after the newline: with indent set,
level times indent spaces after a newline; compact mode inserts
nothing. A negative indent counts as zero, as in Python. -/
def indentStr (indent : Option Int) (level : Nat) : String :=
  match indent with
  | none => ""
  | some n => String.singleton (Char.ofNat 10) ++ String.mk (List.replicate (n.toNat * level) (Char.ofNat 32))

/-- The item separator of json.dumps: a comma and a space in compact mode,
a bare comma when indenting (the newline is part of indentStr). -/
def itemSep (indent : Option Int) : String :=
  match indent with
  | none => ", "
  | some _ => ","

mutual

/-- Serialization of a JSON value as json.dumps does it, with the default
separators and optional indent of the converter call site. -/
def dumpJson (indent : Option Int) (level : Nat) : JsonValue → String
  | JsonValue.str s => dumpString s
  | JsonValue.arr xs =>
    if xs.isEmpty then ("[]")
    else
      "[" ++ indentStr indent (level + 1)
        ++ String.intercalate (itemSep indent ++ indentStr indent (level + 1))
            (dumpJsonList indent (level + 1) xs)
        ++ indentStr indent level ++ "]"
  | JsonValue.obj fields =>
    if fields.isEmpty then ("\x7b\x7d")
    else
      "\x7b" ++ indentStr indent (level + 1)
        ++ String.intercalate (itemSep indent ++ indentStr indent (level + 1))
            (dumpJsonFields indent (level + 1) fields)
        ++ indentStr indent level ++ "\x7d"

/-- Serialization of the elements of a JSON array. -/
def dumpJsonList (indent : Option Int) (level : Nat) : List JsonValue → List String
  | [] => []
  | j :: rest => dumpJson indent level j :: dumpJsonList indent level rest

/-- Serialization of the fields of a JSON object, keys separated from
values by a colon and a space. -/
def dumpJsonFields (indent : Option Int) (level : Nat) : List (String × JsonValue) → List String
  | [] => []
  | kv :: rest =>
    (dumpString kv.1 ++ ": " ++ dumpJson indent level kv.2) :: dumpJsonFields indent level rest

end

/-- The shape selection of _convert_to_json_format before serialization:
the Python result object, built branch by branch, as a JSON value; an
unknown orient raises ValueError with the message of line 126. -/
def convertToJsonValue (headers : List String) (dataRows : List (List String))
    (orient : String) : Except String JsonValue :=
  if orient = "records" then
    Except.ok (JsonValue.arr ((recordsLoop headers dataRows).map
      (fun r => JsonValue.obj (r.map (fun kv => (kv.1, JsonValue.str kv.2))))))
  else if orient = "values" then
    Except.ok (JsonValue.arr (dataRows.map (fun row => JsonValue.arr (row.map JsonValue.str))))
  else if orient = "split" then
    Except.ok (JsonValue.obj
      [("columns", JsonValue.arr (headers.map JsonValue.str)),
       ("data", JsonValue.arr (dataRows.map (fun row => JsonValue.arr (row.map JsonValue.str))))])
  else
    Except.error ("不支持的 JSON 格式: " ++ orient)

/-- Embedding of _convert_to_json_format: shape selection followed by
json.dumps with ensure_ascii False and the configured indent. -/
def convertToJsonFormat (headers : List String) (dataRows : List (List String))
    (options : CSVConversionOptions) : Except String String :=
  (convertToJsonValue headers dataRows options.orient).map (dumpJson options.indent 0)

/-- A file write as performed by convert_csv_to_json_file: target path,
written text and the encoding passed to open. -/
structure WriteEvent where
  path : String
  content : String
  encoding : String
deriving DecidableEq, Repr

/-- Result of an entry point without file output: the returned value or
raised exception, plus a flag recording whether the CSV source content was
read before the call finished. -/
structure ConvResult where
  result : Except ConvError String
  sourceRead : Bool
deriving Repr

/-- Result of the file writing entry point: returned value or exception,
the source read flag, and the trace of file writes. -/
structure FileConvResult where
  result : Except ConvError String
  sourceRead : Bool
  writes : List WriteEvent
deriving Repr

/-- Splitting a character list at every dot, the segments in order. -/
def splitOnDot : List Char → List (List Char)
  | [] => [[]]
  | c :: rest =>
    match splitOnDot rest with
    | [] => [[]]
    | seg :: segs =>
      if c = Char.ofNat 46 then [] :: seg :: segs else (c :: seg) :: segs

/-- Path.with_suffix applied with suffix .json: the last dot extension of
the path is replaced, a path without a dot gets .json appended. -/
def withSuffixJson (p : String) : String :=
  match splitOnDot p.data with
  | [] => p ++ ".json"
  | [_] => p ++ ".json"
  | parts =>
    String.intercalate (".") ((parts.dropLast).map (fun cs => String.mk cs)) ++ ".json"

/-- Embedding of CSVConverter.convert_csv_to_json. The file system is a
map from path to decoded content, existence is queried first, the orient
check follows, and only then is the source parsed by the abstract csv
reader, which receives the delimiter and the content. -/
def convertCsvToJson (parse : String → String → List (List String))
    (fs : String → Option String) (csvFilePath : String)
    (options : CSVConversionOptions) : ConvResult :=
  match fs csvFilePath with
  | none =>
    { result := Except.error (ConvError.fileNotFound ("CSV 文件不存在: " ++ csvFilePath))
      sourceRead := false }
  | some content =>
    if supportedFormats.contains options.orient then
      let processed := processCsvReader (parse options.delimiter content) options
      match convertToJsonFormat processed.1 processed.2 options with
      | Except.ok s => { result := Except.ok s, sourceRead := true }
      | Except.error msg =>
        { result := Except.error (ConvError.valueError ("转换失败: " ++ msg))
          sourceRead := true }
    else
      { result := Except.error (ConvError.valueError ("不支持的 JSON 格式: " ++ options.orient))
        sourceRead := false }

/-- Embedding of CSVConverter.convert_csv_to_json_file: existence check,
orient check, output path defaulting, then read, convert and a single
write opened with encoding utf-8. -/
def convertCsvToJsonFile (parse : String → String → List (List String))
    (fs : String → Option String) (csvFilePath : String)
    (outputFilePath : Option String)
    (options : CSVConversionOptions) : FileConvResult :=
  match fs csvFilePath with
  | none =>
    { result := Except.error (ConvError.fileNotFound ("CSV 文件不存在: " ++ csvFilePath))
      sourceRead := false
      writes := [] }
  | some content =>
    if supportedFormats.contains options.orient then
      let outPath :=
        match outputFilePath with
        | none => withSuffixJson csvFilePath
        | some p => p
      let processed := processCsvReader (parse options.delimiter content) options
      match convertToJsonFormat processed.1 processed.2 options with
      | Except.ok jsonData =>
        { result := Except.ok outPath
          sourceRead := true
          writes := [{ path := outPath, content := jsonData, encoding := "utf-8" }] }
      | Except.error msg =>
        { result := Except.error (ConvError.valueError ("转换失败: " ++ msg))
          sourceRead := true
          writes := [] }
    else
      { result := Except.error (ConvError.valueError ("不支持的 JSON 格式: " ++ options.orient))
        sourceRead := false
        writes := [] }

/-- Embedding of CSVConverter.convert_csv_string_to_json: the string is
parsed by the csv reader inside the try block with no prior orient check;
a ValueError escaping _convert_to_json_format is caught by the generic
except clause and rewrapped with the 转换失败 prefix. -/
def convertCsvStringToJson (parse : String → String → List (List String))
    (csvContent : String) (options : CSVConversionOptions) : ConvResult :=
  let processed := processCsvReader (parse options.delimiter csvContent) options
  match convertToJsonFormat processed.1 processed.2 options with
  | Except.ok s => { result := Except.ok s, sourceRead := true }
  | Except.error msg =>
    { result := Except.error (ConvError.valueError ("转换失败: " ++ msg))
      sourceRead := true }

/-- The uniform envelope the MCP tools return: the success flag, the
payload key (json_file_path or json), the error key and the message. -/
structure ToolResult where
  success : Bool
  payload : Option String
  error : Option String
  message : String
deriving DecidableEq, Repr

/-- Embedding of the tool convert_csv_file of server.py: options are
assembled from the raw arguments, the converter runs, a success dict or
one of the three except branches is returned. FileNotFoundError maps to
文件不存在, ValueError to 转换失败. -/
def convertCsvFileTool (parse : String → String → List (List String))
    (fs : String → Option String) (filePath : String)
    (outputFilePath : Option String) (delimiter encoding : String)
    (skipRows : Int) (header : Bool) (orient : String)
    (indent : Option Int) : ToolResult :=
  let options : CSVConversionOptions :=
    { delimiter := delimiter, encoding := encoding, skip_rows := skipRows,
      header := header, orient := orient, indent := indent }
  match (convertCsvToJsonFile parse fs filePath outputFilePath options).result with
  | Except.ok p =>
    { success := true, payload := some p, error := none,
      message := "CSV 文件转换成功，JSON 文件已生成" }
  | Except.error (ConvError.fileNotFound e) =>
    { success := false, payload := none, error := some e, message := "文件不存在" }
  | Except.error (ConvError.valueError e) =>
    { success := false, payload := none, error := some e, message := "转换失败" }

/-- Embedding of the tool convert_csv_string of server.py: the encoding
option stays at its pydantic default, ValueError maps to 转换失败 and any
other exception to 未知错误 (in the converter embedding only
FileNotFoundError remains for that branch, and the string entry point
never raises it). -/
def convertCsvStringTool (parse : String → String → List (List String))
    (csvContent delimiter : String) (skipRows : Int) (header : Bool)
    (orient : String) (indent : Option Int) : ToolResult :=
  let options : CSVConversionOptions :=
    { delimiter := delimiter, encoding := "utf-8", skip_rows := skipRows,
      header := header, orient := orient, indent := indent }
  match (convertCsvStringToJson parse csvContent options).result with
  | Except.ok j =>
    { success := true, payload := some j, error := none,
      message := "CSV 字符串转换成功" }
  | Except.error (ConvError.valueError e) =>
    { success := false, payload := none, error := some e, message := "转换失败" }
  | Except.error (ConvError.fileNotFound e) =>
    { success := false, payload := none, error := some e, message := "未知错误" }

/-- The dictionary returned by get_csv_info. -/
structure CsvInfo where
  file_size : Nat
  row_count : Nat
  column_count : Nat
  columns : List String
  sample_data : List (List (String × String))
  file_encoding : String
  detected_delimiter : String
deriving DecidableEq, Repr

/-- Embedding of CSVConverter.get_csv_info after the existence check, as a
function of the quantities the two file reads produce: the file size in
bytes, the full record list of the csv reader (of which the code keeps the
first 10), and the line count of the second scan. The single field first
row check, the rows[1:4] sample slice and the line count adjustment follow
the Python text exactly. -/
def getCsvInfo (fileSize : Nat) (allRecords : List (List String))
    (lineCount : Nat) : CsvInfo :=
  let rows := allRecords.take 10
  match rows with
  | [] =>
    { file_size := fileSize, row_count := 0, column_count := 0, columns := [],
      sample_data := [], file_encoding := "utf-8", detected_delimiter := "," }
  | r0 :: rest =>
    let headers :=
      if r0.length > 1 then r0
      else (List.range r0.length).map (fun i => "column_" ++ toString i)
    { file_size := fileSize
      row_count := if lineCount > 1 then lineCount - 1 else lineCount
      column_count := headers.length
      columns := headers
      sample_data := recordsLoop headers (rest.take 3)
      file_encoding := "utf-8"
      detected_delimiter := "," }

/-- Modelled from the spec: the same shaped reconstruction of the values
round trip, reading a JSON array of strings back as one row of text
fields. -/
def decodeCells : List JsonValue → Option (List String)
  | [] => some []
  | JsonValue.str s :: rest => (decodeCells rest).map (fun tl => s :: tl)
  | _ => none

/-- Modelled from the spec: one serialized row of the values shape read
back as a list of fields. -/
def decodeRow : JsonValue → Option (List String)
  | JsonValue.arr cells => decodeCells cells
  | _ => none

/-- Modelled from the spec: the rows of the values shape read back one by
one. -/
def decodeRowList : List JsonValue → Option (List (List String))
  | [] => some []
  | j :: rest =>
    match decodeRow j, decodeRowList rest with
    | some r, some rs => some (r :: rs)
    | _, _ => none

/-- Modelled from the spec: the values output read back as a list of data
rows, the reconstruction direction of the round trip property. -/
def decodeRows : JsonValue → Option (List (List String))
  | JsonValue.arr rs => decodeRowList rs
  | _ => none

/-! Helper lemmas about the records loop and dict insertion. -/

theorem foldl_records_eq (headers : List String) (l : List (List String))
    (acc : List (List (String × String))) :
    l.foldl
      (fun a row =>
        if row.length = headers.length then a ++ [buildRecord headers row] else a)
      acc
      = acc ++ (l.filter (fun r => r.length = headers.length)).map (buildRecord headers) := by
  induction l generalizing acc with
  | nil => simp
  | cons r rest ih =>
    by_cases h : r.length = headers.length
    · simp [h, ih, List.filter_cons]
    · simp [h, ih, List.filter_cons]

theorem recordsLoop_eq_filter_map (headers : List String) (l : List (List String)) :
    recordsLoop headers l
      = (l.filter (fun r => r.length = headers.length)).map (buildRecord headers) := by
  simpa using foldl_records_eq headers l []

theorem foldl_dictInsert_fresh (ps : List (String × String)) :
    ∀ d : List (String × String), (ps.map Prod.fst).Nodup →
      (∀ p ∈ ps, ∀ q ∈ d, q.1 ≠ p.1) →
      ps.foldl (fun a kv => dictInsert a kv.1 kv.2) d = d ++ ps := by
  induction ps with
  | nil => intro d _ _; simp
  | cons kv ps ih =>
    intro d hnd hdisj
    have hfresh : d.any (fun p => p.1 = kv.1) = false := by
      simp only [List.any_eq_false, decide_eq_true_eq]
      intro q hq
      exact hdisj kv (by simp) q hq
    have hins : dictInsert d kv.1 kv.2 = d ++ [kv] := by
      simp [dictInsert, hfresh]
    rw [List.foldl_cons, hins]
    have hnd2 : (ps.map Prod.fst).Nodup := (List.nodup_cons.mp (by simpa using hnd)).2
    have hout : kv.1 ∉ ps.map Prod.fst := (List.nodup_cons.mp (by simpa using hnd)).1
    have hdisj2 : ∀ p ∈ ps, ∀ q ∈ d ++ [kv], q.1 ≠ p.1 := by
      intro p hp q hq
      rcases List.mem_append.mp hq with hqd | hqkv
      · exact hdisj p (List.mem_cons_of_mem _ hp) q hqd
      · have : q = kv := by simpa using hqkv
        subst this
        intro hEq
        exact hout (hEq ▸ List.mem_map_of_mem Prod.fst hp)
    rw [ih (d ++ [kv]) hnd2 hdisj2]
    simp

theorem buildRecord_eq_zip (headers row : List String) (hnd : headers.Nodup)
    (hlen : row.length = headers.length) :
    buildRecord headers row = headers.zip row := by
  have hkeys : ((headers.zip row).map Prod.fst).Nodup := by
    rw [List.map_fst_zip _ _ (by omega)]
    exact hnd
  have h := foldl_dictInsert_fresh (headers.zip row) [] hkeys (by simp)
  simpa [buildRecord] using h

/-- C3: for every record list and every options value, the table reader
first drops the first skip_rows records (the guarded slice of the code
equals an unconditional drop of the nonnegative part); if nothing remains
it returns empty header and rows; otherwise with header true the first
remaining record becomes the header and the rest the rows, and with
header false the header is synthesized as column_0 to column_(n-1) from
the width of the first remaining record while all remaining records stay
rows. -/
theorem table_reader_structure (rows : List (List String))
    (opts : CSVConversionOptions) :
    processCsvReader rows opts =
      match rows.drop opts.skip_rows.toNat with
      | [] => ([], [])
      | r :: rest =>
        if opts.header then (r, rest)
        else ((List.range r.length).map (fun i => "column_" ++ toString i), r :: rest) := by
  unfold processCsvReader
  by_cases h : opts.skip_rows > 0
  · simp [h]
  · have h0 : opts.skip_rows.toNat = 0 := Int.toNat_eq_zero.mpr (by omega)
    simp [h, h0]

/-- C2 (amended): for a header list with pairwise distinct entries, the
records output keeps exactly the rows whose field count equals the header
length, in input order, each as an object whose keys are the header
entries in order and whose values are the fields of that row; ragged rows
are dropped silently. With duplicate header names the object collapses
the repeated key, keeping the last value. -/
theorem records_output_filters_ragged_rows (headers : List String)
    (rows : List (List String)) (hnd : headers.Nodup) :
    recordsLoop headers rows
      = (rows.filter (fun r => r.length = headers.length)).map (fun r => headers.zip r)
    ∧ (rows.filter (fun r => r.length = headers.length)).map
        (fun r => (headers.zip r).map Prod.fst)
      = (rows.filter (fun r => r.length = headers.length)).map (fun _ => headers)
    ∧ (rows.filter (fun r => r.length = headers.length)).map
        (fun r => (headers.zip r).map Prod.snd)
      = rows.filter (fun r => r.length = headers.length) := by
  have hmem : ∀ r ∈ rows.filter (fun r => r.length = headers.length),
      r.length = headers.length := by
    intro r hr
    exact of_decide_eq_true (List.mem_filter.mp hr).2
  refine ⟨?_, ?_, ?_⟩
  · rw [recordsLoop_eq_filter_map]
    exact List.map_congr_left (fun r hr => buildRecord_eq_zip headers r hnd (hmem r hr))
  · exact List.map_congr_left
      (fun r hr => List.map_fst_zip _ _ (le_of_eq (hmem r hr).symm))
  · have h := List.map_congr_left
      (fun r hr => List.map_snd_zip headers r (le_of_eq (hmem r hr)))
    calc (rows.filter (fun r => r.length = headers.length)).map
          (fun r => (headers.zip r).map Prod.snd)
        = (rows.filter (fun r => r.length = headers.length)).map id := h
      _ = rows.filter (fun r => r.length = headers.length) := List.map_id _

/-- C2 witness: a concrete run with distinct headers, the ragged second
row dropped. -/
theorem records_output_filters_ragged_rows_witness :
    recordsLoop ["a", "b"] [["1", "2"], ["x"], ["3", "4"]]
      = [[("a", "1"), ("b", "2")], [("a", "3"), ("b", "4")]] := by
  have h := (records_output_filters_ragged_rows ["a", "b"]
    [["1", "2"], ["x"], ["3", "4"]] (by decide)).1
  rw [h]
  decide

/-- C2 counterexample: with the duplicate header list the single record
object holds one key carrying the last field, so its key list differs
from the header list. -/
theorem records_duplicate_header_counterexample :
    recordsLoop ["a", "a"] [["1", "2"]] = [[("a", "2")]]
    ∧ ((recordsLoop ["a", "a"] [["1", "2"]]).map (fun r => r.map Prod.fst))
        ≠ [["a", "a"]] := by
  decide

/-- C5: for every header and row list the values output is the row
sequence unchanged, with the same row count and each inner array in field
order, and the split output is the object whose columns field is the
header and whose data field is the rows, unfiltered. -/
theorem values_and_split_shapes (headers : List String)
    (dataRows : List (List String)) :
    convertToJsonValue headers dataRows ("values")
      = Except.ok (JsonValue.arr (dataRows.map (fun row => JsonValue.arr (row.map JsonValue.str))))
    ∧ (dataRows.map (fun row => JsonValue.arr (row.map JsonValue.str))).length
        = dataRows.length
    ∧ convertToJsonValue headers dataRows ("split")
      = Except.ok (JsonValue.obj
          [("columns", JsonValue.arr (headers.map JsonValue.str)),
           ("data", JsonValue.arr (dataRows.map (fun row => JsonValue.arr (row.map JsonValue.str))))]) := by
  refine ⟨by simp [convertToJsonValue], by simp, by simp [convertToJsonValue]⟩

theorem convertToJsonValue_bad_orient (headers : List String)
    (dataRows : List (List String)) (o : String)
    (h1 : o ≠ "records") (h2 : o ≠ "values") (h3 : o ≠ "split") :
    convertToJsonValue headers dataRows o
      = Except.error ("不支持的 JSON 格式: " ++ o) := by
  simp [convertToJsonValue, h1, h2, h3]

/-- C1 (amended): for an unsupported orient the two file based entry
points fail with the InvalidOption ValueError without reading the source
(given that the source file exists; a missing file fails with NotFound
first, equally without reading) and the file writing variant writes
nothing; the string entry point also fails with the InvalidOption
message, but only after the CSV content has been parsed, and wrapped in
the generic conversion failure prefix by its catch all handler. -/
theorem invalid_orient_rejection (parse : String → String → List (List String))
    (fs : String → Option String) (path csvContent content : String)
    (out : Option String) (opts : CSVConversionOptions)
    (hex : fs path = some content)
    (hbad : supportedFormats.contains opts.orient = false) :
    convertCsvToJson parse fs path opts
      = { result := Except.error (ConvError.valueError ("不支持的 JSON 格式: " ++ opts.orient))
          sourceRead := false }
    ∧ convertCsvToJsonFile parse fs path out opts
      = { result := Except.error (ConvError.valueError ("不支持的 JSON 格式: " ++ opts.orient))
          sourceRead := false
          writes := [] }
    ∧ convertCsvStringToJson parse csvContent opts
      = { result := Except.error (ConvError.valueError
            ("转换失败: " ++ ("不支持的 JSON 格式: " ++ opts.orient)))
          sourceRead := true } := by
  have hne : opts.orient ≠ "records" ∧ opts.orient ≠ "values" ∧ opts.orient ≠ "split" := by
    simpa [supportedFormats] using hbad
  obtain ⟨h1, h2, h3⟩ := hne
  have hnotmem : opts.orient ∉ supportedFormats := by
    intro hmem
    rcases by simpa [supportedFormats] using hmem with h | h | h
    · exact h1 h
    · exact h2 h
    · exact h3 h
  refine ⟨?_, ?_, ?_⟩
  · simp [convertCsvToJson, hex, hbad]
    intro hmem
    exact absurd hmem hnotmem
  · simp [convertCsvToJsonFile, hex, hbad]
    intro hmem
    exact absurd hmem hnotmem
  · simp [convertCsvStringToJson, convertToJsonFormat,
      convertToJsonValue_bad_orient _ _ _ h1 h2 h3, Except.map]

/-- C1 witness: the file entry points reject orient pivot on an existing
source without reading it, shown through the amended statement at a
concrete input. -/
theorem invalid_orient_rejection_witness :
    convertCsvToJsonFile (fun _ c => [[c]]) (fun _ => some ("a,b")) ("in.csv") none
        { orient := "pivot" }
      = { result := Except.error (ConvError.valueError ("不支持的 JSON 格式: " ++ "pivot"))
          sourceRead := false
          writes := [] } :=
  (invalid_orient_rejection (fun _ c => [[c]]) (fun _ => some ("a,b")) ("in.csv")
    ("x,y") ("a,b") none { orient := "pivot" } rfl (by decide)).2.1

/-- C1 counterexample: at the string entry point with orient pivot the
call fails only after the CSV content has been parsed: the source read
flag of the failing call is set, refuting failure before reading the
source for every entry point. -/
theorem invalid_orient_before_read_counterexample :
    (convertCsvStringToJson (fun _ c => [[c]]) ("a,b")
        { orient := "pivot" }).sourceRead = true
    ∧ (convertCsvStringToJson (fun _ c => [[c]]) ("a,b")
        { orient := "pivot" }).result
      = Except.error (ConvError.valueError ("转换失败: 不支持的 JSON 格式: pivot")) := by
  exact ⟨rfl, rfl⟩

/-- C6: a missing source path fails with the NotFound error, nothing is
read and no output file is created. -/
theorem missing_source_no_output (parse : String → String → List (List String))
    (fs : String → Option String) (path : String) (out : Option String)
    (opts : CSVConversionOptions) (h : fs path = none) :
    convertCsvToJsonFile parse fs path out opts
      = { result := Except.error (ConvError.fileNotFound ("CSV 文件不存在: " ++ path))
          sourceRead := false
          writes := [] } := by
  simp [convertCsvToJsonFile, h]

/-- C6 witness: the NotFound failure with an empty write trace on an
empty file system. -/
theorem missing_source_no_output_witness :
    convertCsvToJsonFile (fun _ c => [[c]]) (fun _ => none) ("absent.csv") none {}
      = { result := Except.error (ConvError.fileNotFound ("CSV 文件不存在: " ++ "absent.csv"))
          sourceRead := false
          writes := [] } :=
  missing_source_no_output (fun _ c => [[c]]) (fun _ => none) ("absent.csv") none {} rfl

theorem processCsvReader_skip_nonpos (rows : List (List String))
    (opts : CSVConversionOptions) (n : Int) (hn : n ≤ 0) :
    processCsvReader rows { opts with skip_rows := n }
      = processCsvReader rows { opts with skip_rows := 0 } := by
  unfold processCsvReader
  rw [if_neg (by simp; omega), if_neg (by simp)]

/-- C9: a negative skip_rows value is not rejected by any entry point and
behaves exactly like skip_rows zero: the guarded slice never runs, so no
record is skipped and each entry point returns the same result. -/
theorem negative_skip_rows_ignored (parse : String → String → List (List String))
    (fs : String → Option String) (path csvContent : String)
    (out : Option String) (opts : CSVConversionOptions) (n : Int) (hn : n < 0) :
    convertCsvToJson parse fs path { opts with skip_rows := n }
      = convertCsvToJson parse fs path { opts with skip_rows := 0 }
    ∧ convertCsvToJsonFile parse fs path out { opts with skip_rows := n }
      = convertCsvToJsonFile parse fs path out { opts with skip_rows := 0 }
    ∧ convertCsvStringToJson parse csvContent { opts with skip_rows := n }
      = convertCsvStringToJson parse csvContent { opts with skip_rows := 0 } := by
  have hp : ∀ r, processCsvReader r { opts with skip_rows := n }
      = processCsvReader r { opts with skip_rows := 0 } :=
    fun r => processCsvReader_skip_nonpos r opts n (le_of_lt hn)
  refine ⟨?_, ?_, ?_⟩
  · unfold convertCsvToJson
    cases fs path with
    | none => rfl
    | some content =>
      simp only [hp]
      rfl
  · unfold convertCsvToJsonFile
    cases fs path with
    | none => rfl
    | some content =>
      simp only [hp]
      rfl
  · unfold convertCsvStringToJson
    simp only [hp]
    rfl

/-- C9 witness: skip_rows minus two gives the same output as zero at the
string entry point on a concrete input. -/
theorem negative_skip_rows_ignored_witness :
    convertCsvStringToJson (fun _ c => [[c]]) ("a,b") { skip_rows := -2 }
      = convertCsvStringToJson (fun _ c => [[c]]) ("a,b") { skip_rows := 0 } :=
  (negative_skip_rows_ignored (fun _ c => [[c]]) (fun _ => none) ("p.csv") ("a,b")
    none {} (-2) (by decide)).2.2

/-- C10: every successful file conversion ends with exactly one write of
the serialized output, opened with encoding utf-8, whatever the encoding
option configured for reading the source was. -/
theorem output_file_utf8 (parse : String → String → List (List String))
    (fs : String → Option String) (path : String) (out : Option String)
    (opts : CSVConversionOptions) (p : String)
    (h : (convertCsvToJsonFile parse fs path out opts).result = Except.ok p) :
    ∃ cnt, (convertCsvToJsonFile parse fs path out opts).writes
      = [{ path := p, content := cnt, encoding := "utf-8" }] := by
  unfold convertCsvToJsonFile at h ⊢
  cases hfs : fs path with
  | none =>
    rw [hfs] at h
    simp at h
  | some content =>
    rw [hfs] at h
    by_cases hb : supportedFormats.contains opts.orient
    · simp only [hb, if_true] at h ⊢
      cases hc : convertToJsonFormat
          (processCsvReader (parse opts.delimiter content) opts).1
          (processCsvReader (parse opts.delimiter content) opts).2 opts with
      | ok s =>
        rw [hc] at h
        simp at h
        refine ⟨s, ?_⟩
        simp [h]
      | error msg =>
        rw [hc] at h
        simp at h
    · have hmem : opts.orient ∉ supportedFormats := by simpa using hb
      simp [hmem] at h

/-- C10 witness: a concrete successful conversion with a non utf-8 source
encoding still writes the output with encoding utf-8. -/
theorem output_file_utf8_witness :
    ∃ cnt, (convertCsvToJsonFile (fun _ c => [[c]]) (fun _ => some ("a,b")) ("in.csv")
        none { encoding := "gbk" }).writes
      = [{ path := "in.json", content := cnt, encoding := "utf-8" }] :=
  output_file_utf8 (fun _ c => [[c]]) (fun _ => some ("a,b")) ("in.csv") none
    { encoding := "gbk" } ("in.json") rfl

/-- C4: both tools are total functions into the uniform envelope: every
call returns success true with a payload and no error key, or success
false with an error key and no payload, and the success flag is true
exactly when the underlying converter call returned normally. -/
theorem tools_uniform_envelope (parse : String → String → List (List String))
    (fs : String → Option String) (filePath : String)
    (outputFilePath : Option String) (delimiter encoding csvContent : String)
    (skipRows : Int) (hdr : Bool) (orient : String) (indent : Option Int) :
    (((convertCsvFileTool parse fs filePath outputFilePath delimiter encoding
          skipRows hdr orient indent).success = true
        ∧ (convertCsvFileTool parse fs filePath outputFilePath delimiter encoding
            skipRows hdr orient indent).error = none
        ∧ ((convertCsvFileTool parse fs filePath outputFilePath delimiter encoding
            skipRows hdr orient indent).payload).isSome = true)
      ∨ ((convertCsvFileTool parse fs filePath outputFilePath delimiter encoding
            skipRows hdr orient indent).success = false
        ∧ (convertCsvFileTool parse fs filePath outputFilePath delimiter encoding
            skipRows hdr orient indent).payload = none
        ∧ ((convertCsvFileTool parse fs filePath outputFilePath delimiter encoding
            skipRows hdr orient indent).error).isSome = true))
    ∧ (((convertCsvStringTool parse csvContent delimiter skipRows hdr orient
          indent).success = true
        ∧ (convertCsvStringTool parse csvContent delimiter skipRows hdr orient
            indent).error = none
        ∧ ((convertCsvStringTool parse csvContent delimiter skipRows hdr orient
            indent).payload).isSome = true)
      ∨ ((convertCsvStringTool parse csvContent delimiter skipRows hdr orient
            indent).success = false
        ∧ (convertCsvStringTool parse csvContent delimiter skipRows hdr orient
            indent).payload = none
        ∧ ((convertCsvStringTool parse csvContent delimiter skipRows hdr orient
            indent).error).isSome = true)) := by
  constructor
  · unfold convertCsvFileTool
    cases hres : (convertCsvToJsonFile parse fs filePath outputFilePath
        { delimiter := delimiter, encoding := encoding, skip_rows := skipRows,
          header := hdr, orient := orient, indent := indent }).result with
    | ok p => left; simp [hres]
    | error e => cases e with
      | fileNotFound m => right; simp [hres]
      | valueError m => right; simp [hres]
  · unfold convertCsvStringTool
    cases hres : (convertCsvStringToJson parse csvContent
        { delimiter := delimiter, encoding := "utf-8", skip_rows := skipRows,
          header := hdr, orient := orient, indent := indent }).result with
    | ok p => left; simp [hres]
    | error e => cases e with
      | fileNotFound m => right; simp [hres]
      | valueError m => right; simp [hres]

theorem recordsLoop_length_le (headers : List String) (l : List (List String)) :
    (recordsLoop headers l).length ≤ l.length := by
  rw [recordsLoop_eq_filter_map]
  simpa using List.length_filter_le _ l

theorem getCsvInfo_take10 (fileSize : Nat) (records : List (List String))
    (lineCount : Nat) :
    getCsvInfo fileSize (records.take 10) lineCount
      = getCsvInfo fileSize records lineCount := by
  unfold getCsvInfo
  rw [show (records.take 10).take 10 = records.take 10 from by simp [List.take_take]]

/-- C7 (amended): for every existing file the inspector reports the file
size, the fixed encoding utf-8 and delimiter comma, a column count equal
to the length of the reported columns, a sample of at most 3 records in
records shape, and it inspects only the first 10 records for structure;
the row count is the line count minus one only when more than one line
was counted (a zero or one line file reports the line count itself, not
minus one), and the first record is reported as the header only when it
has more than one field, a single field first record being replaced by a
synthesized column name. -/
theorem info_inspector_fields (fileSize : Nat) (records : List (List String))
    (lineCount : Nat) :
    (getCsvInfo fileSize records lineCount).file_size = fileSize
    ∧ (getCsvInfo fileSize records lineCount).row_count
        = (match records.take 10 with
           | [] => 0
           | _ :: _ => if lineCount > 1 then lineCount - 1 else lineCount)
    ∧ (getCsvInfo fileSize records lineCount).file_encoding = "utf-8"
    ∧ (getCsvInfo fileSize records lineCount).detected_delimiter = ","
    ∧ (getCsvInfo fileSize records lineCount).column_count
        = (getCsvInfo fileSize records lineCount).columns.length
    ∧ (getCsvInfo fileSize records lineCount).sample_data.length ≤ 3
    ∧ (getCsvInfo fileSize records lineCount).columns
        = (match records.take 10 with
           | [] => []
           | r0 :: _ =>
             if r0.length > 1 then r0
             else (List.range r0.length).map (fun i => "column_" ++ toString i))
    ∧ getCsvInfo fileSize (records.take 10) lineCount
        = getCsvInfo fileSize records lineCount := by
  cases h10 : records.take 10 with
  | nil =>
    refine ⟨?_, ?_, ?_, ?_, ?_, ?_, ?_,
        by rw [← h10]; exact getCsvInfo_take10 fileSize records lineCount⟩ <;>
      simp [getCsvInfo, h10]
  | cons r0 rest =>
    have hsample : (recordsLoop
        (if r0.length > 1 then r0
         else (List.range r0.length).map (fun i => "column_" ++ toString i))
        (rest.take 3)).length ≤ 3 := by
      calc (recordsLoop _ (rest.take 3)).length
          ≤ (rest.take 3).length := recordsLoop_length_le _ _
        _ ≤ 3 := List.length_take_le _ _
    refine ⟨?_, ?_, ?_, ?_, ?_, ?_, ?_,
        by rw [← h10]; exact getCsvInfo_take10 fileSize records lineCount⟩ <;>
      simp [getCsvInfo, h10, hsample]

/-- C7 counterexample: a file holding the single line name, one record of
one field: the inspector reports row count 1 where line count minus one
is 0, and replaces the actual header by the synthesized column_0, so the
claimed row count and header are both refuted. -/
theorem info_inspector_counterexample :
    (getCsvInfo 5 [["name"]] 1).row_count = 1
    ∧ (1 : Nat) - 1 = 0
    ∧ (getCsvInfo 5 [["name"]] 1).columns = ["column_0"]
    ∧ (getCsvInfo 5 [["name"]] 1).columns ≠ ["name"] := by
  refine ⟨rfl, rfl, rfl, ?_⟩
  decide

theorem decodeCells_map_str (row : List String) :
    decodeCells (row.map JsonValue.str) = some row := by
  induction row with
  | nil => rfl
  | cons s rest ih => simp [decodeCells, ih]

theorem decodeRowList_map (rows : List (List String)) :
    decodeRowList (rows.map (fun row => JsonValue.arr (row.map JsonValue.str)))
      = some rows := by
  induction rows with
  | nil => rfl
  | cons r rest ih => simp [decodeRowList, decodeRow, decodeCells_map_str, ih]

/-- C8: for every row list and options with the values orient, the values
output decodes back to exactly the original rows, so re-serializing the
reconstruction with the same options yields text identical to the first
serialization. -/
theorem values_roundtrip (headers : List String) (rows : List (List String))
    (opts : CSVConversionOptions) (h : opts.orient = "values") :
    ∃ v rows2,
      convertToJsonValue headers rows opts.orient = Except.ok v
      ∧ decodeRows v = some rows2
      ∧ convertToJsonFormat headers rows2 opts = convertToJsonFormat headers rows opts := by
  refine ⟨JsonValue.arr (rows.map (fun row => JsonValue.arr (row.map JsonValue.str))),
    rows, ?_, ?_, rfl⟩
  · rw [h]
    simp [convertToJsonValue]
  · simp [decodeRows, decodeRowList_map]

/-- C8 witness: the round trip at a concrete input. -/
theorem values_roundtrip_witness :
    ∃ v rows2,
      convertToJsonValue ["h"] [["1", "2"]]
          ({ orient := "values" } : CSVConversionOptions).orient = Except.ok v
      ∧ decodeRows v = some rows2
      ∧ convertToJsonFormat ["h"] rows2 { orient := "values" }
          = convertToJsonFormat ["h"] [["1", "2"]] { orient := "values" } :=
  values_roundtrip ["h"] [["1", "2"]] { orient := "values" } rfl
